import Mathlib

/-!
Verification of the template preprocessing and rendering engine of
`streamlit_app.py` (client-care letter generator).

The Python source works on Python `str` values; here text is modelled as
`String` at the data-model level and as `List Char` inside the character
level text transformations (stripping, substring search, splitting,
replacement), which mirror the Python string primitives used by the code
(`str.strip`, `in`, `str.split`, `str.replace`, `str.splitlines`,
`str.startswith`).
-/

namespace Letter

/-- Model of Python `str.strip()`: drop whitespace from both ends. -/
def trimChars (l : List Char) : List Char :=
  ((l.dropWhile Char.isWhitespace).reverse.dropWhile Char.isWhitespace).reverse

/-- Model of the Python substring test `p in s` on character lists. -/
def containsSeq (p : List Char) : List Char → Bool
  | [] => p.isEmpty
  | c :: rest => p.isPrefixOf (c :: rest) || containsSeq p rest

/-- Model of Python `s.split(sep)` for a single-character separator:
every occurrence of the separator splits, empty pieces are kept. -/
def splitOnCharAux (sep : Char) (acc : List Char) : List Char → List (List Char)
  | [] => [acc.reverse]
  | c :: rest =>
    if c = sep then acc.reverse :: splitOnCharAux sep [] rest
    else splitOnCharAux sep (c :: acc) rest

/-- Model of Python `s.split(sep)` for a single-character separator. -/
def splitOnChar (sep : Char) (s : List Char) : List (List Char) :=
  splitOnCharAux sep [] s

/-- Model of Python `str.splitlines()` restricted to the line terminators
that occur in this application (`\n`, `\r\n`, `\r`): the text is cut at
every terminator and no trailing empty line is produced. -/
def splitlinesAux (acc : List Char) : List Char → List (List Char)
  | [] => if acc.isEmpty then [] else [acc.reverse]
  | '\r' :: '\n' :: rest => acc.reverse :: splitlinesAux [] rest
  | '\r' :: rest => acc.reverse :: splitlinesAux [] rest
  | '\n' :: rest => acc.reverse :: splitlinesAux [] rest
  | c :: rest => splitlinesAux (c :: acc) rest

/-- Model of Python `str.splitlines()`, producing the lines as strings. -/
def splitlines (s : String) : List String :=
  (splitlinesAux [] s.toList).map List.asString

/-- Fuel-indexed worker for `replaceAll`.  One unit of fuel is spent per
consumed character, so `s.length` fuel always suffices. -/
def replaceAllGo (p v : List Char) : Nat → List Char → List Char
  | _, [] => []
  | 0, s => s
  | fuel + 1, c :: cs =>
    if p.isPrefixOf (c :: cs) then
      v ++ replaceAllGo p v fuel (cs.drop (p.length - 1))
    else
      c :: replaceAllGo p v fuel cs

/-- Model of Python `s.replace(p, v)` for a non-empty pattern `p`: replace
every non-overlapping occurrence of `p` left to right by `v`; the inserted
replacement text is not rescanned within the same pass. -/
def replaceAll (p v s : List Char) : List Char :=
  replaceAllGo p v s.length s

/-! ## Placeholder resolver (`load_firm_details`, `get_placeholder_map`) -/

/-- The static firm data returned by `load_firm_details`, in source order. -/
def firm_details : List (String × String) := [
  ("name", "Ramsdens Solicitors LLP"), ("short_name", "Ramsdens"),
  ("person_responsible_name", "Paul Pinder"), ("person_responsible_title", "Senior Associate"),
  ("supervisor_name", "Nick Armitage"), ("supervisor_title", "Partner"),
  ("person_responsible_phone", "01484 821558"), ("person_responsible_mobile", "07923 250815"),
  ("person_responsible_email", "paul.pinder@ramsdens.co.uk"), ("assistant_name", "Reece Collier"),
  ("supervisor_contact_for_complaints", "Nick Armitage on 01484 507121"), ("bank_name", "Barclays Bank PLC"),
  ("bank_address", "17 Market Place, Huddersfield"), ("account_name", "Ramsdens Solicitors LLP Client Account"),
  ("sort_code", "20-43-12"), ("account_number", "03909026"),
  ("marketing_email", "dataprotection@ramsdens.co.uk"),
  ("marketing_address", "Ramsdens Solicitors LLP, Oakley House, 1 Hungerford Road, Edgerton, Huddersfield, HD3 3AL")]

/-- The per-request part of the placeholder dictionary built by
`get_placeholder_map`, before `placeholders.update(firm_placeholders)`.
`inputs` models the `app_inputs` dictionary (string values; `none` for an
absent key), and `.getD` models `dict.get` with its default argument. -/
def placeholders_base (inputs : String → Option String) : List (String × String) := [
  ("qu1_dispute_nature", (inputs "qu1_dispute_nature").getD ""),
  ("qu2_initial_steps", (inputs "qu2_initial_steps").getD ""),
  ("qu3_timescales", (inputs "qu3_timescales").getD ""),
  ("qu4_initial_costs_with_vat", (inputs "qu4_initial_costs_with_vat").getD "XX,XXX"),
  ("our_ref", (inputs "our_ref").getD ""),
  ("your_ref", (inputs "your_ref").getD ""),
  ("letter_date", (inputs "letter_date").getD ""),
  ("client_name_input", (inputs "client_name_input").getD ""),
  ("client_salutation", (inputs "client_salutation").getD ""),
  ("client_address_line1", (inputs "client_address_line1").getD ""),
  ("client_address_line2_conditional", (inputs "client_address_line2_conditional").getD ""),
  ("client_postcode", (inputs "client_postcode").getD ""),
  ("matter_number", (inputs "our_ref").getD ""),
  ("name", (inputs "name").getD "")]

/-- Python `dict` assignment `m[k] = v`: replace the binding in place when
the key is present, append it otherwise. -/
def setKey : List (String × String) → String × String → List (String × String)
  | [], kv => [kv]
  | (k, v) :: rest, kv => if k == kv.1 then (k, kv.2) :: rest else (k, v) :: setKey rest kv

/-- Python `dict.update`: apply every binding of `upd` in order. -/
def updateMap (m upd : List (String × String)) : List (String × String) :=
  upd.foldl setKey m

/-- `get_placeholder_map(app_inputs, firm_details)`: the per-request
placeholders, then `placeholders.update(firm_placeholders)` (firm data
applied last, overwriting). -/
def get_placeholder_map (inputs : String → Option String) : List (String × String) :=
  updateMap (placeholders_base inputs) firm_details

/-! ## Markup renderer (`add_formatted_runs`) -/

/-- The token `"{" + placeholder + "}"` searched for by the substitution
loop in `add_formatted_runs`. -/
def placeholderPattern (key : String) : List Char :=
  '{' :: key.toList ++ ['}']

/-- The substitution pass of `add_formatted_runs`: one
`processed_text.replace("{" + placeholder + "}", value)` per map entry, in
map order. -/
def substitute (pm : List (String × String)) (t : List Char) : List Char :=
  pm.foldl (fun acc kv => replaceAll (placeholderPattern kv.1) kv.2.toList acc) t

/-- Model of `re.split` with the capture-group pattern
`(<bd>|</bd>|<ins>|</ins>)`: the text is cut at every marker occurrence and
the markers themselves are kept as separate list entries. -/
def splitMarkersAux : List Char → List Char → List (List Char)
  | acc, [] => [acc.reverse]
  | acc, '<' :: 'b' :: 'd' :: '>' :: rest =>
    acc.reverse :: "<bd>".toList :: splitMarkersAux [] rest
  | acc, '<' :: '/' :: 'b' :: 'd' :: '>' :: rest =>
    acc.reverse :: "</bd>".toList :: splitMarkersAux [] rest
  | acc, '<' :: 'i' :: 'n' :: 's' :: '>' :: rest =>
    acc.reverse :: "<ins>".toList :: splitMarkersAux [] rest
  | acc, '<' :: '/' :: 'i' :: 'n' :: 's' :: '>' :: rest =>
    acc.reverse :: "</ins>".toList :: splitMarkersAux [] rest
  | acc, c :: rest => splitMarkersAux (c :: acc) rest

/-- Split a substituted line on the four inline markup markers. -/
def splitMarkers (s : List Char) : List (List Char) :=
  splitMarkersAux [] s

/-- One item emitted into a paragraph by `add_formatted_runs`: either a
text run carrying the bold/underline state, or an explicit line break
(`add_break`). -/
inductive RunItem where
  | run (text : List Char) (bold underline : Bool)
  | brk
deriving DecidableEq, Repr

/-- The inner loop of `add_formatted_runs` over `part.split('\n')`: a run
per piece, an explicit break before every piece after the first. -/
def emitPart (bold underline : Bool) (part : List Char) : List RunItem :=
  match splitOnChar '\n' part with
  | [] => []
  | first :: rest =>
    RunItem.run first bold underline ::
      rest.flatMap (fun lp => [RunItem.brk, RunItem.run lp bold underline])

/-- The marker loop of `add_formatted_runs`: empty parts are skipped,
marker parts toggle the bold/underline state, text parts are emitted with
the state current when they are encountered. -/
def processParts : Bool → Bool → List (List Char) → List RunItem
  | _, _, [] => []
  | b, u, part :: rest =>
    if part.isEmpty then processParts b u rest
    else if part = "<bd>".toList then processParts true u rest
    else if part = "</bd>".toList then processParts false u rest
    else if part = "<ins>".toList then processParts b true rest
    else if part = "</ins>".toList then processParts b false rest
    else emitPart b u part ++ processParts b u rest

/-- `add_formatted_runs(paragraph, text_line, placeholder_map)`, modelled
as the ordered sequence of runs and breaks appended to the paragraph:
placeholder substitution, then the markup split with both toggles
initialized false. -/
def add_formatted_runs (pm : List (String × String)) (text_line : String) : List RunItem :=
  processParts false false (splitMarkers (substitute pm text_line.toList))

/-! ## Precedent parser (`preprocess_precedent`) -/

/-- The three list kinds tracked by `current_list_type`. -/
inductive ListType where
  | numbered
  | letter
  | roman
deriving DecidableEq, Repr

/-- The `type` field of a logical element produced by `flush_block` and
the blank-line branch of the scanning loop. -/
inductive ElementType where
  | blank_line
  | heading
  | fee_table
  | numbered
  | letter
  | roman
  | general_paragraph
deriving DecidableEq, Repr

/-- `element_type = list_type or 'general_paragraph'` identifies each list
kind with the element type of the same name. -/
def ListType.toElementType : ListType → ElementType
  | .numbered => .numbered
  | .letter => .letter
  | .roman => .roman

/-- A parsed logical element: the dictionaries appended to
`logical_elements`. -/
structure LogicalElement where
  type : ElementType
  content_lines : List String
  block_tag : Option String
  list_type : Option ListType
deriving DecidableEq, Repr

/-- `determine_list_type(line)`: strip, then test the three line-start
markers in source order (`<a>`, `<i>`, `1.`). -/
def determine_list_type (line : List Char) : Option ListType :=
  let l := trimChars line
  if ("<a>".toList).isPrefixOf l then some ListType.letter
  else if ("<i>".toList).isPrefixOf l then some ListType.roman
  else if ("1.".toList).isPrefixOf l then some ListType.numbered
  else none

/-- `flush_block(block_tag, block_lines, list_type)`, returned as the list
of elements it appends: nothing for an empty buffer; a `blank_line` when
the stripped first line is empty; a `heading` when the stripped first line
contains `<ins>`; a `fee_table` when it contains the fee-table sentinel;
otherwise the active list type, or `general_paragraph` when none is set. -/
def flush_block (block_tag : Option String) (block_lines : List String)
    (list_type : Option ListType) : List LogicalElement :=
  match block_lines with
  | [] => []
  | l0 :: _ =>
    let content := trimChars l0.toList
    if content.isEmpty then
      [⟨.blank_line, [], block_tag, none⟩]
    else if containsSeq ("<ins>".toList) content then
      [⟨.heading, block_lines, block_tag, none⟩]
    else if containsSeq ("[FEE_TABLE_PLACEHOLDER]".toList) content then
      [⟨.fee_table, block_lines, block_tag, none⟩]
    else
      match list_type with
      | some t => [⟨t.toElementType, block_lines, block_tag, some t⟩]
      | none => [⟨.general_paragraph, block_lines, block_tag, none⟩]

/-- The conditional tags admitted by the two tag regexes, in alternation
order: `indiv|corp|a[1-4]|u[1-4]`. -/
def validTags : List String :=
  ["indiv", "corp", "a1", "a2", "a3", "a4", "u1", "u2", "u3", "u4"]

/-- `re.match(r'^\[(indiv|corp|a[1-4]|u[1-4])\]$', line)`: the stripped
line is exactly an opening tag of the enumerated set. -/
def matchStartTag (line : List Char) : Option String :=
  validTags.find? (fun t => line == ("[" ++ t ++ "]").toList)

/-- `re.match(r'^\[/(indiv|corp|a[1-4]|u[1-4])\]$', line)`: the stripped
line is exactly a closing tag of the enumerated set. -/
def matchEndTag (line : List Char) : Option String :=
  validTags.find? (fun t => line == ("[/" ++ t ++ "]").toList)

/-- The mutable state of the scanning loop of `preprocess_precedent`. -/
structure ParseState where
  current_block_tag : Option String
  block_lines : List String
  current_list_type : Option ListType
  out : List LogicalElement
deriving DecidableEq, Repr

/-- One iteration of the scanning loop of `preprocess_precedent` on one
raw line: open tags flush a pending untagged buffer and set the block tag;
close tags flush the buffer when it belongs to the same tag, then clear
both the block tag and the list type; a non-blank content line flushes on
a list-type transition and is buffered; a blank line flushes the buffer
and appends a standalone `blank_line` element tagged with the open block. -/
def stepLine (s : ParseState) (rawLine : String) : ParseState :=
  let line := trimChars rawLine.toList
  match matchStartTag line with
  | some t =>
    if s.block_lines ≠ [] ∧ s.current_block_tag = none then
      ⟨some t, [], s.current_list_type,
        s.out ++ flush_block none s.block_lines s.current_list_type⟩
    else
      ⟨some t, s.block_lines, s.current_list_type, s.out⟩
  | none =>
    match matchEndTag line with
    | some t =>
      if s.block_lines ≠ [] ∧ s.current_block_tag = some t then
        ⟨none, [], none,
          s.out ++ flush_block s.current_block_tag s.block_lines s.current_list_type⟩
      else
        ⟨none, s.block_lines, none, s.out⟩
    | none =>
      if line.isEmpty then
        ⟨s.current_block_tag, [], s.current_list_type,
          s.out ++ flush_block s.current_block_tag s.block_lines s.current_list_type
            ++ [⟨.blank_line, [], s.current_block_tag, none⟩]⟩
      else
        match determine_list_type line with
        | some nlt =>
          if some nlt ≠ s.current_list_type then
            ⟨s.current_block_tag, [rawLine], some nlt,
              s.out ++ flush_block s.current_block_tag s.block_lines s.current_list_type⟩
          else
            ⟨s.current_block_tag, s.block_lines ++ [rawLine], s.current_list_type, s.out⟩
        | none =>
          ⟨s.current_block_tag, s.block_lines ++ [rawLine], s.current_list_type, s.out⟩

/-- `preprocess_precedent(precedent_content, app_inputs)`: scan all lines,
then flush any remaining buffered lines at end of input. -/
def preprocess_precedent (precedent_content : String) : List LogicalElement :=
  let final := (splitlines precedent_content).foldl stepLine ⟨none, [], none, []⟩
  final.out ++ flush_block final.current_block_tag final.block_lines final.current_list_type

/-! ## Document assembler (`process_precedent_text`) -/

/-- The run-time selections consulted by the assembler:
`app_inputs['client_type']`, `app_inputs['claim_assigned']`,
`app_inputs['selected_track']` and `app_inputs['hourly_rate']`. -/
structure AppInputs where
  client_type : String
  claim_assigned : Bool
  selected_track : String
  hourly_rate : Nat
deriving DecidableEq, Repr

/-- The `tag_map` of `should_render_track_block`: each track tag maps to
one (claim-assigned, track-name) pair. -/
def trackTagMap : List (String × (Bool × String)) := [
  ("a1", (true, "Small Claims Track")), ("a2", (true, "Fast Track")),
  ("a3", (true, "Intermediate Track")), ("a4", (true, "Multi Track")),
  ("u1", (false, "Small Claims Track")), ("u2", (false, "Fast Track")),
  ("u3", (false, "Intermediate Track")), ("u4", (false, "Multi Track"))]

/-- `should_render_track_block(tag, claim_assigned, selected_track)`:
look the tag up in `tag_map`; unknown tags never render, known tags render
iff both the assigned flag and the track name match. -/
def should_render_track_block (tag : String) (claim_assigned : Bool)
    (selected_track : String) : Bool :=
  match trackTagMap.lookup tag with
  | none => false
  | some expected => claim_assigned == expected.1 && selected_track == expected.2

/-- The per-element visibility test at the top of the assembler loop:
untagged elements always render; `indiv`/`corp` compare the client type;
every other tag defers to `should_render_track_block`. -/
def elementVisible (inputs : AppInputs) (tag : Option String) : Bool :=
  match tag with
  | none => true
  | some t =>
    if t == "indiv" then inputs.client_type == "Individual"
    else if t == "corp" then inputs.client_type == "Corporate"
    else should_render_track_block t inputs.claim_assigned inputs.selected_track

/-- One piece of content appended to the output document by the assembler:
a heading paragraph, a numbered-scheme list paragraph at a level, a
general paragraph (possibly extra-indented), the fee table, or the spacer
paragraph emitted after the fee table. -/
inductive DocItem where
  | heading_para (runs : List RunItem)
  | list_para (level : Nat) (runs : List RunItem)
  | gen_para (runs : List RunItem) (indented : Bool)
  | fee_tbl (rows : List (String × String))
  | spacer_para
deriving DecidableEq, Repr

/-- The `fee_data` rows of the fee-table branch: five (grade, rate) rows,
the Grade C rate interpolating the run-time hourly rate. -/
def fee_data (hourly_rate : Nat) : List (String × String) := [
  ("Grade A", "£450 (Partners, Solicitors over 8 years)"),
  ("Grade B", "£350 (Solicitors/Legal Executives over 4 years)"),
  ("Grade C", "£" ++ toString hourly_rate ++ " (Solicitors/Legal Executives under 4 years)"),
  ("Grade D", "£250 (Trainees, Paralegals)"),
  ("Grade E", "£150 (Support Staff)")]

/-- The list-item text cleanup of `add_list_item`:
`text.replace('<a>', '').replace('<i>', '').strip()`. -/
def clean_list_text (text : String) : String :=
  (trimChars (replaceAll ("<i>".toList) [] (replaceAll ("<a>".toList) [] text.toList))).asString

/-- `add_list_item(level, text)`: one paragraph attached to the shared
numbering scheme at the given level, holding the runs rendered from the
cleaned text. -/
def add_list_item (pm : List (String × String)) (level : Nat) (text : String) : List DocItem :=
  [DocItem.list_para level (add_formatted_runs pm (clean_list_text text))]

/-- The `[ind]` cleanup of the general-paragraph branch:
`content.replace('[ind]', '').strip()`. -/
def clean_general_text (content : String) : String :=
  (trimChars (replaceAll ("[ind]".toList) [] content.toList)).asString

/-- The per-element dispatch of the assembler loop (after the visibility
test): `content` is the first buffered line, or `""` for an empty buffer;
each element type appends its document content. -/
def renderElement (inputs : AppInputs) (pm : List (String × String))
    (e : LogicalElement) : List DocItem :=
  let content := e.content_lines.headD ""
  match e.type with
  | .blank_line => []
  | .fee_table => [DocItem.fee_tbl (fee_data inputs.hourly_rate), DocItem.spacer_para]
  | .heading => [DocItem.heading_para (add_formatted_runs pm content)]
  | .numbered => add_list_item pm 0 content
  | .letter => add_list_item pm 1 content
  | .roman => add_list_item pm 2 content
  | .general_paragraph =>
    [DocItem.gen_para (add_formatted_runs pm (clean_general_text content))
      (containsSeq ("[ind]".toList) content.toList)]

/-- One iteration of the assembler loop: skip the element entirely when
its block tag is not visible, render it otherwise. -/
def elementOutput (inputs : AppInputs) (pm : List (String × String))
    (e : LogicalElement) : List DocItem :=
  if elementVisible inputs e.block_tag then renderElement inputs pm e else []

/-- `process_precedent_text`, modelled as the ordered document content
appended while walking the parsed elements. -/
def process_precedent_text (inputs : AppInputs) (pm : List (String × String))
    (precedent_content : String) : List DocItem :=
  (preprocess_precedent precedent_content).flatMap (elementOutput inputs pm)

/-! ## Helper lemmas -/

/-- A replacement pass leaves a character list without any occurrence of
the pattern unchanged, whatever the fuel. -/
theorem replaceAllGo_not_contains (p v : List Char) :
    ∀ (fuel : Nat) (s : List Char), containsSeq p s = false →
      replaceAllGo p v fuel s = s := by
  intro fuel
  induction fuel with
  | zero => intro s _h; cases s <;> rfl
  | succ fuel ih =>
    intro s h
    cases s with
    | nil => rfl
    | cons c cs =>
      have h' : p.isPrefixOf (c :: cs) = false ∧ containsSeq p cs = false := by
        simpa [containsSeq] using h
      simp [replaceAllGo, h'.1, ih cs h'.2]

/-- `str.replace` leaves a string without any occurrence of the pattern
unchanged. -/
theorem replaceAll_not_contains (p v s : List Char) (h : containsSeq p s = false) :
    replaceAll p v s = s :=
  replaceAllGo_not_contains p v s.length s h

/-- The substitution pass leaves text containing no placeholder token of
the map unchanged. -/
theorem substitute_no_tokens :
    ∀ (pm : List (String × String)) (t : List Char),
      (∀ kv ∈ pm, containsSeq (placeholderPattern kv.1) t = false) →
      substitute pm t = t := by
  intro pm
  induction pm with
  | nil => intro t _h; rfl
  | cons kv rest ih =>
    intro t h
    have hrepl : replaceAll (placeholderPattern kv.1) kv.2.toList t = t :=
      replaceAll_not_contains _ _ _ (h kv (List.mem_cons_self kv rest))
    calc substitute (kv :: rest) t
        = substitute rest (replaceAll (placeholderPattern kv.1) kv.2.toList t) := rfl
      _ = substitute rest t := by rw [hrepl]
      _ = t := ih t (fun kv' hkv' => h kv' (List.mem_cons_of_mem _ hkv'))

/-- Symbolic evaluation of the resolver: the per-request bindings in
declaration order — with the `name` binding overwritten by the firm value —
followed by the remaining firm bindings in firm order. -/
theorem get_placeholder_map_eq (inputs : String → Option String) :
    get_placeholder_map inputs = [
      ("qu1_dispute_nature", (inputs "qu1_dispute_nature").getD ""),
      ("qu2_initial_steps", (inputs "qu2_initial_steps").getD ""),
      ("qu3_timescales", (inputs "qu3_timescales").getD ""),
      ("qu4_initial_costs_with_vat", (inputs "qu4_initial_costs_with_vat").getD "XX,XXX"),
      ("our_ref", (inputs "our_ref").getD ""),
      ("your_ref", (inputs "your_ref").getD ""),
      ("letter_date", (inputs "letter_date").getD ""),
      ("client_name_input", (inputs "client_name_input").getD ""),
      ("client_salutation", (inputs "client_salutation").getD ""),
      ("client_address_line1", (inputs "client_address_line1").getD ""),
      ("client_address_line2_conditional", (inputs "client_address_line2_conditional").getD ""),
      ("client_postcode", (inputs "client_postcode").getD ""),
      ("matter_number", (inputs "our_ref").getD ""),
      ("name", "Ramsdens Solicitors LLP"),
      ("short_name", "Ramsdens"),
      ("person_responsible_name", "Paul Pinder"),
      ("person_responsible_title", "Senior Associate"),
      ("supervisor_name", "Nick Armitage"),
      ("supervisor_title", "Partner"),
      ("person_responsible_phone", "01484 821558"),
      ("person_responsible_mobile", "07923 250815"),
      ("person_responsible_email", "paul.pinder@ramsdens.co.uk"),
      ("assistant_name", "Reece Collier"),
      ("supervisor_contact_for_complaints", "Nick Armitage on 01484 507121"),
      ("bank_name", "Barclays Bank PLC"),
      ("bank_address", "17 Market Place, Huddersfield"),
      ("account_name", "Ramsdens Solicitors LLP Client Account"),
      ("sort_code", "20-43-12"),
      ("account_number", "03909026"),
      ("marketing_email", "dataprotection@ramsdens.co.uk"),
      ("marketing_address", "Ramsdens Solicitors LLP, Oakley House, 1 Hungerford Road, Edgerton, Huddersfield, HD3 3AL")] := by
  simp [get_placeholder_map, placeholders_base, updateMap, firm_details, setKey]

/-! ## Claim theorems -/

/-- Claim C1, amended: a template line that begins with the numbered-list
marker but contains `<ins>` anywhere in it is classified by `flush_block`
as a `heading`, not as a numbered list item — the underline-marker test on
the (stripped) first buffered line precedes the list-type rule, whatever
the block tag and the active list type. -/
theorem c1_heading_precedence (tag : Option String) (lt : Option ListType) :
    flush_block tag ["1. First item <ins>Heading</ins>"] lt =
      [⟨ElementType.heading, ["1. First item <ins>Heading</ins>"], tag, none⟩] :=
  rfl

/-- Claim C1, counterexample: parsing the single template line
`"1. First item <ins>Heading</ins>"` (which sets the active list type to
`numbered` before the flush) yields a `heading` element, not the
`numbered` element the claim requires. -/
theorem c1_counterexample :
    preprocess_precedent "1. First item <ins>Heading</ins>" =
      [⟨ElementType.heading, ["1. First item <ins>Heading</ins>"], none, none⟩]
    ∧ ElementType.heading ≠ ElementType.numbered := by
  decide

/-- Claim C2, amended: the substitution pass runs one full replacement per
placeholder key in map order, so a replacement value containing a token of
a later key is re-expanded; substitution is idempotent on text containing
no further placeholder token of the map after one pass. -/
theorem c2_substitution_idempotent (pm : List (String × String)) (line : List Char)
    (h : ∀ kv ∈ pm, containsSeq (placeholderPattern kv.1) (substitute pm line) = false) :
    substitute pm (substitute pm line) = substitute pm line :=
  substitute_no_tokens pm (substitute pm line) h

/-- Claim C2, witness for the amended theorem at a concrete map and line. -/
theorem c2_substitution_idempotent_witness :
    substitute [("a", "X")] (substitute [("a", "X")] ("{a}".toList)) =
      substitute [("a", "X")] ("{a}".toList) :=
  c2_substitution_idempotent [("a", "X")] ("{a}".toList) (by decide)

/-- Claim C2, counterexample: with the map binding `a` (earlier key) to
the value `"{b}"` and `b` (later key) to `"X"`, substituting the line
`"{a}"` yields `"X"`: the token `{b}` inside the replacement value of `a`
IS re-expanded by the later pass for `b`, contradicting the claim that a
value containing a token of another key is never re-expanded. -/
theorem c2_counterexample :
    substitute [("a", "{b}"), ("b", "X")] ("{a}".toList) = "X".toList
    ∧ "X".toList ≠ "{b}".toList := by
  decide

/-- Claim C7: on the input line
`"<bd>Total: {qu4_initial_costs_with_vat}</bd>"` with the placeholder
bound to `"£500 plus VAT"`, the renderer produces exactly one run, bold
and not underlined, reading `"Total: £500 plus VAT"` (both toggles start
false and the single text segment carries the state current when it is
encountered). -/
theorem c7_single_bold_run :
    add_formatted_runs [("qu4_initial_costs_with_vat", "£500 plus VAT")]
        "<bd>Total: {qu4_initial_costs_with_vat}</bd>" =
      [RunItem.run ("Total: £500 plus VAT".toList) true false] := by
  decide

/-- Claim C9: for a heading, numbered, letter, roman or general-paragraph
element, the assembler renders only the first line of `content_lines`; the
remaining buffered lines do not affect the output. -/
theorem c9_first_line_only (inputs : AppInputs) (pm : List (String × String))
    (ty : ElementType) (tag : Option String) (lt : Option ListType)
    (l0 : String) (rest : List String)
    (_h : ty ∈ [ElementType.heading, ElementType.numbered, ElementType.letter,
      ElementType.roman, ElementType.general_paragraph]) :
    renderElement inputs pm ⟨ty, l0 :: rest, tag, lt⟩ =
      renderElement inputs pm ⟨ty, [l0], tag, lt⟩ := by
  cases ty <;> rfl

/-- Claim C9, witness: a two-line heading element renders identically to
its first line alone. -/
theorem c9_first_line_only_witness :
    renderElement ⟨"Individual", true, "Fast Track", 295⟩ []
        ⟨ElementType.heading, ["line one", "line two"], none, none⟩ =
      renderElement ⟨"Individual", true, "Fast Track", 295⟩ []
        ⟨ElementType.heading, ["line one"], none, none⟩ :=
  c9_first_line_only ⟨"Individual", true, "Fast Track", 295⟩ []
    ElementType.heading none none "line one" ["line two"] (by decide)

/-- Claim C3: each list element is attached to its numbering level (0 for
numbered, 1 for letter, 2 for roman) and the `<a>`/`<i>` markers are
stripped before rendering, but the leading `"1."` marker of a numbered
item is NOT stripped: the text handed to the renderer still begins with
`"1. "` while the numbering engine supplies its own marker. -/
theorem c3_list_marker_behaviour (inputs : AppInputs) (pm : List (String × String))
    (tag : Option String) :
    clean_list_text "1. First item" = "1. First item"
    ∧ clean_list_text "<a> Sub item" = "Sub item"
    ∧ clean_list_text "<i> Sub sub item" = "Sub sub item"
    ∧ renderElement inputs pm ⟨ElementType.numbered, ["1. First item"], tag, some ListType.numbered⟩ =
        [DocItem.list_para 0 (add_formatted_runs pm "1. First item")]
    ∧ renderElement inputs pm ⟨ElementType.letter, ["<a> Sub item"], tag, some ListType.letter⟩ =
        [DocItem.list_para 1 (add_formatted_runs pm "Sub item")]
    ∧ renderElement inputs pm ⟨ElementType.roman, ["<i> Sub sub item"], tag, some ListType.roman⟩ =
        [DocItem.list_para 2 (add_formatted_runs pm "Sub sub item")] := by
  have h1 : clean_list_text "1. First item" = "1. First item" := by decide
  have h2 : clean_list_text "<a> Sub item" = "Sub item" := by decide
  have h3 : clean_list_text "<i> Sub sub item" = "Sub sub item" := by decide
  refine ⟨h1, h2, h3, ?_, ?_, ?_⟩
  · show add_list_item pm 0 "1. First item" = _
    unfold add_list_item
    rw [h1]
  · show add_list_item pm 1 "<a> Sub item" = _
    unfold add_list_item
    rw [h2]
  · show add_list_item pm 2 "<i> Sub sub item" = _
    unfold add_list_item
    rw [h3]

/-- Claim C4: visibility is a function of the block tag and the run-time
selections only — untagged elements always render, `indiv`/`corp` follow
the client type, `a1..a4` require the claim-assigned flag with their fixed
track, `u1..u4` the unassigned flag with theirs; with the flag set and the
Fast Track selected exactly `a2` among the eight track tags renders, and a
non-matching element contributes nothing to the output. -/
theorem c4_visibility (ct tr : String) (ca : Bool) (r : Nat) (pm : List (String × String)) :
    elementVisible ⟨ct, ca, tr, r⟩ none = true
    ∧ elementVisible ⟨ct, ca, tr, r⟩ (some "indiv") = (ct == "Individual")
    ∧ elementVisible ⟨ct, ca, tr, r⟩ (some "corp") = (ct == "Corporate")
    ∧ elementVisible ⟨ct, ca, tr, r⟩ (some "a1") = (ca && tr == "Small Claims Track")
    ∧ elementVisible ⟨ct, ca, tr, r⟩ (some "a2") = (ca && tr == "Fast Track")
    ∧ elementVisible ⟨ct, ca, tr, r⟩ (some "a3") = (ca && tr == "Intermediate Track")
    ∧ elementVisible ⟨ct, ca, tr, r⟩ (some "a4") = (ca && tr == "Multi Track")
    ∧ elementVisible ⟨ct, ca, tr, r⟩ (some "u1") = (!ca && tr == "Small Claims Track")
    ∧ elementVisible ⟨ct, ca, tr, r⟩ (some "u2") = (!ca && tr == "Fast Track")
    ∧ elementVisible ⟨ct, ca, tr, r⟩ (some "u3") = (!ca && tr == "Intermediate Track")
    ∧ elementVisible ⟨ct, ca, tr, r⟩ (some "u4") = (!ca && tr == "Multi Track")
    ∧ elementVisible ⟨ct, true, "Fast Track", r⟩ (some "a2") = true
    ∧ elementVisible ⟨ct, true, "Fast Track", r⟩ (some "a1") = false
    ∧ elementVisible ⟨ct, true, "Fast Track", r⟩ (some "a3") = false
    ∧ elementVisible ⟨ct, true, "Fast Track", r⟩ (some "a4") = false
    ∧ elementVisible ⟨ct, true, "Fast Track", r⟩ (some "u1") = false
    ∧ elementVisible ⟨ct, true, "Fast Track", r⟩ (some "u2") = false
    ∧ elementVisible ⟨ct, true, "Fast Track", r⟩ (some "u3") = false
    ∧ elementVisible ⟨ct, true, "Fast Track", r⟩ (some "u4") = false
    ∧ elementOutput ⟨ct, true, "Fast Track", r⟩ pm
        ⟨ElementType.heading, ["skipped"], some "a1", none⟩ = [] := by
  cases ca <;>
    simp [elementVisible, should_render_track_block, trackTagMap, elementOutput,
      List.lookup]

/-- Claim C5: the fee table has five two-cell rows; only the third row's
second cell depends on the input, reading exactly
`"£295 (Solicitors/Legal Executives under 4 years)"` for an hourly rate of
295, the other four rows are fixed literals, and the rendered table is
followed by a spacer paragraph. -/
theorem c5_fee_table (r : Nat) (inputs : AppInputs) (pm : List (String × String))
    (tag : Option String) (ls : List String) :
    (fee_data r).length = 5
    ∧ (fee_data 295)[2]? = some ("Grade C", "£295 (Solicitors/Legal Executives under 4 years)")
    ∧ (fee_data r)[2]? = some ("Grade C", "£" ++ toString r ++ " (Solicitors/Legal Executives under 4 years)")
    ∧ (fee_data r)[0]? = some ("Grade A", "£450 (Partners, Solicitors over 8 years)")
    ∧ (fee_data r)[1]? = some ("Grade B", "£350 (Solicitors/Legal Executives over 4 years)")
    ∧ (fee_data r)[3]? = some ("Grade D", "£250 (Trainees, Paralegals)")
    ∧ (fee_data r)[4]? = some ("Grade E", "£150 (Support Staff)")
    ∧ renderElement inputs pm ⟨ElementType.fee_table, ls, tag, none⟩ =
        [DocItem.fee_tbl (fee_data inputs.hourly_rate), DocItem.spacer_para] :=
  ⟨rfl, by decide, rfl, rfl, rfl, rfl, rfl, rfl⟩

/-- Claim C6: in the resolver's map every value is a string (the model's
value type); each per-request field whose consulted input key is absent
defaults to the empty string, except `qu4_initial_costs_with_vat` which
defaults to `"XX,XXX"` (the `matter_number` placeholder consults the
`our_ref` key, and `name` keeps its empty default only in the per-request
map, before the firm data is applied); and the firm map is applied last,
so every firm binding — including the colliding `name` — wins in the
final map. -/
theorem c6_placeholder_defaults (inputs : String → Option String) :
    (inputs "qu1_dispute_nature" = none →
      List.lookup "qu1_dispute_nature" (get_placeholder_map inputs) = some "")
    ∧ (inputs "qu2_initial_steps" = none →
      List.lookup "qu2_initial_steps" (get_placeholder_map inputs) = some "")
    ∧ (inputs "qu3_timescales" = none →
      List.lookup "qu3_timescales" (get_placeholder_map inputs) = some "")
    ∧ (inputs "qu4_initial_costs_with_vat" = none →
      List.lookup "qu4_initial_costs_with_vat" (get_placeholder_map inputs) = some "XX,XXX")
    ∧ (inputs "our_ref" = none →
      List.lookup "our_ref" (get_placeholder_map inputs) = some "")
    ∧ (inputs "your_ref" = none →
      List.lookup "your_ref" (get_placeholder_map inputs) = some "")
    ∧ (inputs "letter_date" = none →
      List.lookup "letter_date" (get_placeholder_map inputs) = some "")
    ∧ (inputs "client_name_input" = none →
      List.lookup "client_name_input" (get_placeholder_map inputs) = some "")
    ∧ (inputs "client_salutation" = none →
      List.lookup "client_salutation" (get_placeholder_map inputs) = some "")
    ∧ (inputs "client_address_line1" = none →
      List.lookup "client_address_line1" (get_placeholder_map inputs) = some "")
    ∧ (inputs "client_address_line2_conditional" = none →
      List.lookup "client_address_line2_conditional" (get_placeholder_map inputs) = some "")
    ∧ (inputs "client_postcode" = none →
      List.lookup "client_postcode" (get_placeholder_map inputs) = some "")
    ∧ (inputs "our_ref" = none →
      List.lookup "matter_number" (get_placeholder_map inputs) = some "")
    ∧ (inputs "name" = none →
      List.lookup "name" (placeholders_base inputs) = some "")
    ∧ (∀ kv ∈ firm_details, List.lookup kv.1 (get_placeholder_map inputs) = some kv.2) := by
  have e := get_placeholder_map_eq inputs
  refine ⟨fun h => by rw [e, h]; rfl, fun h => by rw [e, h]; rfl,
    fun h => by rw [e, h]; rfl, fun h => by rw [e, h]; rfl,
    fun h => by rw [e, h]; rfl, fun h => by rw [e, h]; rfl,
    fun h => by rw [e, h]; rfl, fun h => by rw [e, h]; rfl,
    fun h => by rw [e, h]; rfl, fun h => by rw [e, h]; rfl,
    fun h => by rw [e, h]; rfl, fun h => by rw [e, h]; rfl,
    fun h => by rw [e, h]; rfl,
    fun h => by unfold placeholders_base; rw [h]; rfl,
    fun kv hkv => by fin_cases hkv <;> (rw [e]; rfl)⟩

/-- Claim C6, witness: with every input key absent, the defaults and the
firm-wins collision rule at concrete keys. -/
theorem c6_placeholder_defaults_witness :
    List.lookup "qu1_dispute_nature" (get_placeholder_map (fun _ => none)) = some ""
    ∧ List.lookup "qu4_initial_costs_with_vat" (get_placeholder_map (fun _ => none)) = some "XX,XXX"
    ∧ List.lookup "name" (get_placeholder_map (fun _ => none)) = some "Ramsdens Solicitors LLP" := by
  obtain ⟨h1, _, _, h4, _, _, _, _, _, _, _, _, _, _, hfirm⟩ :=
    c6_placeholder_defaults (fun _ => none)
  exact ⟨h1 rfl, h4 rfl, hfirm ("name", "Ramsdens Solicitors LLP") (by decide)⟩

/-- Claim C8, helper: the effect of a close-tag line on the parser state,
once the line is known to match the close-tag regex and not the open-tag
regex. -/
theorem stepLine_close (s : ParseState) (t : String)
    (h1 : matchStartTag (trimChars ("[/" ++ t ++ "]").toList) = none)
    (h2 : matchEndTag (trimChars ("[/" ++ t ++ "]").toList) = some t) :
    stepLine s ("[/" ++ t ++ "]") =
      if s.current_block_tag = some t then
        ⟨none, [], none, s.out ++ flush_block s.current_block_tag s.block_lines s.current_list_type⟩
      else
        ⟨none, s.block_lines, none, s.out⟩ := by
  rcases s with ⟨tag, bl, lt, out⟩
  simp only [stepLine, h1, h2]
  by_cases htag : tag = some t
  · subst htag
    cases bl with
    | nil => simp [flush_block]
    | cons x xs => simp
  · simp [htag]

/-- Claim C8, amended: a close-tag line `[/tag]` flushes the buffered
element tagged with the open block when `tag` matches it, and in every
case — matching or mismatched — clears BOTH the open block tag and the
current list type; the buffered lines are kept on a mismatch. (The claim's
assertion that clearing the block tag is the complete effect of a
mismatched close tag fails: the list type is reset too.) -/
theorem c8_close_tag_effect (s : ParseState) (t : String) (ht : t ∈ validTags) :
    stepLine s ("[/" ++ t ++ "]") =
      if s.current_block_tag = some t then
        ⟨none, [], none, s.out ++ flush_block s.current_block_tag s.block_lines s.current_list_type⟩
      else
        ⟨none, s.block_lines, none, s.out⟩ := by
  fin_cases ht <;> exact stepLine_close s _ (by decide) (by decide)

/-- Claim C8, witness: closing a matching `indiv` block flushes the
buffered numbered element tagged `indiv` and clears the state. -/
theorem c8_close_tag_effect_witness :
    stepLine ⟨some "indiv", ["1. x"], some ListType.numbered, []⟩ ("[/" ++ "indiv" ++ "]") =
      ⟨none, [], none, [⟨ElementType.numbered, ["1. x"], some "indiv", some ListType.numbered⟩]⟩ :=
  (c8_close_tag_effect ⟨some "indiv", ["1. x"], some ListType.numbered, []⟩ "indiv"
    (by decide)).trans (by decide)

/-- Claim C8, counterexample: a mismatched close tag does more than clear
the block tag — it also resets the current list type, and the parsed
element sequence shows it: in the template
`"[indiv]\n1. item A\n[/corp]\n1. item B"` the buffered line
`"1. item A"` is later flushed as a `general_paragraph` (its numbered list
type was wiped by the mismatched `[/corp]`), not as the `numbered` element
the claimed state change would produce. -/
theorem c8_counterexample :
    stepLine ⟨some "indiv", ["1. item A"], some ListType.numbered, []⟩ "[/corp]" =
      ⟨none, ["1. item A"], none, []⟩
    ∧ (⟨none, ["1. item A"], none, []⟩ : ParseState) ≠
        ⟨none, ["1. item A"], some ListType.numbered, []⟩
    ∧ preprocess_precedent "[indiv]\n1. item A\n[/corp]\n1. item B" =
        [⟨ElementType.general_paragraph, ["1. item A"], none, none⟩,
         ⟨ElementType.numbered, ["1. item B"], none, some ListType.numbered⟩]
    ∧ ElementType.general_paragraph ≠ ElementType.numbered := by
  decide

/-- Claim C10: the resolver binds `matter_number` to the same value as
`our_ref` (both derived from the `our_ref` input), and the map never
consults the `matter_number` input key: two input maps agreeing everywhere
except possibly at `matter_number` produce the same placeholder map. -/
theorem c10_matter_number (inputs : String → Option String) :
    List.lookup "matter_number" (get_placeholder_map inputs) =
      List.lookup "our_ref" (get_placeholder_map inputs)
    ∧ ∀ inputs₂ : String → Option String,
        (∀ k, k ≠ "matter_number" → inputs k = inputs₂ k) →
        get_placeholder_map inputs = get_placeholder_map inputs₂ := by
  constructor
  · rw [get_placeholder_map_eq]
    rfl
  · intro inputs₂ h
    have hbase : placeholders_base inputs = placeholders_base inputs₂ := by
      unfold placeholders_base
      rw [h "qu1_dispute_nature" (by decide), h "qu2_initial_steps" (by decide),
        h "qu3_timescales" (by decide), h "qu4_initial_costs_with_vat" (by decide),
        h "our_ref" (by decide), h "your_ref" (by decide), h "letter_date" (by decide),
        h "client_name_input" (by decide), h "client_salutation" (by decide),
        h "client_address_line1" (by decide), h "client_address_line2_conditional" (by decide),
        h "client_postcode" (by decide), h "name" (by decide)]
    show updateMap (placeholders_base inputs) firm_details =
      updateMap (placeholders_base inputs₂) firm_details
    rw [hbase]

/-- Claim C10, witness: adding a `matter_number` input leaves the whole
placeholder map unchanged. -/
theorem c10_matter_number_witness :
    get_placeholder_map (fun _ => none) =
      get_placeholder_map (fun k => if k == "matter_number" then some "M-123" else none) := by
  apply (c10_matter_number (fun _ => none)).2
  intro k hk
  have hb : (k == "matter_number") = false := by
    simpa using hk
  simp [hb]

end Letter
